import Mathlib

/-!
Shallow embedding of the `Policy` sampling orchestration from
`src/finagg/cuda/algo/policy.py` and verification of the spec's claims
about it.

The repository ships only `policy.py` for this package; its collaborators
(`batch.py`, `dist.py`, `model.py`) are not in the source tree, so they are
modelled from the spec's collaborator contracts (section 6 of the spec) and
marked as such below.  `policy.py` itself is embedded faithfully:

* a `TensorDict` is a finite map from string keys to tensor values,
  carrying a `batch_size` and a `device` attribute;
* the process-wide gradient-tracking mode is threaded explicitly as a
  boolean (`prev` on entry, `gradMode` on exit);
* Python exceptions become `Except`: every collaborator call site that can
  raise returns `Except E _`, and the sampler itself produces an
  `Except E (TensorDict V)` result while still exposing the final ambient
  gradient mode and the final state of the caller's batch (observable in
  Python even when the call raises);
* ghost instrumentation fields (`forwardCalls`, `viewKinds`, `dists`,
  `outIsBatch`) record how often the model's forward pass ran, which `kind`
  strings were forwarded to `apply_view_requirements`, which distribution
  instances were constructed during the call, and whether the returned
  container aliases the caller's batch.  They do not influence the computed
  values.
-/

namespace Finagg

/-- A tensor dictionary: an insertion-ordered finite map from field names to
tensor values `V`, together with the `batch_size` and `device` attributes a
`TensorDict` carries.  Overwriting an existing key keeps its position, as a
Python mapping does. -/
structure TensorDict (V : Type) where
  entries : List (String × V)
  batchSize : List Nat
  device : String
deriving Repr, DecidableEq

namespace TensorDict

/-- Insert or overwrite a key in an association list, keeping the position
of an existing key. -/
def setEntry {V : Type} (l : List (String × V)) (k : String) (v : V) :
    List (String × V) :=
  match l with
  | [] => [(k, v)]
  | (k', v') :: t => if k' = k then (k, v) :: t else (k', v') :: setEntry t k v

/-- `out[key] = value` on a tensor dict. -/
def set {V : Type} (td : TensorDict V) (k : String) (v : V) : TensorDict V :=
  { td with entries := setEntry td.entries k v }

/-- Look a key up in an association list. -/
def lookupEntry {V : Type} (l : List (String × V)) (k : String) : Option V :=
  match l with
  | [] => none
  | (k', v) :: t => if k' = k then some v else lookupEntry t k

/-- Look a field up by name. -/
def get? {V : Type} (td : TensorDict V) (k : String) : Option V :=
  lookupEntry td.entries k

end TensorDict

namespace Batch

/-- Modelled from the spec: the `Batch` field-key vocabulary (`batch.py` is
not in the source tree).  The spec names a fixed, shared vocabulary of four
distinct output field names; this is the features key. -/
def FEATURES : String := "features"

/-- Modelled from the spec: the actions field key. -/
def ACTIONS : String := "actions"

/-- Modelled from the spec: the log-probability field key. -/
def LOGP : String := "logp"

/-- Modelled from the spec: the value-estimate field key. -/
def VALUES : String := "values"

end Batch

/-- Modelled from the spec: a `Distribution` instance (`dist.py` is not in
the source tree).  Constructed per call; exposes `sample()`,
`deterministic_sample()` and `logp(action)`.  Sampling may raise. -/
structure Dist (E V : Type) where
  sample : Except E V
  deterministicSample : Except E V
  logp : V → V

/-- Modelled from the spec: a `Model` (`model.py` is not in the source
tree).  Exposes `apply_view_requirements(batch, kind)`, a callable forward
pass producing features and updating internal state `S`, and
`value_function()` reading the value estimate of the most recent forward
pass from that state.  Preprocessing and the forward pass may raise. -/
structure Model (E V S : Type) where
  applyViewRequirements : TensorDict V → String → Except E (TensorDict V)
  forward : S → TensorDict V → Except E (V × S)
  valueFunction : S → V

/-- Modelled from the spec: a distribution class — a stateless construction
rule building a distribution instance from the model's output features and
the model itself (with its current internal state).  Construction may
raise. -/
def DistCls (E V S : Type) : Type :=
  V → Model E V S → S → Except E (Dist E V)

/-- The `Policy` data: exactly one model instance plus the stored
distribution class (`policy.py`, class attributes `model` and
`dist_cls`). -/
structure Policy (E V S : Type) where
  model : Model E V S
  distCls : DistCls E V S

/-- `Policy.__init__` (`policy.py` lines 45-57): construct the one model
instance from the three specs and the configuration mapping, store the
distribution class unapplied.  A failing model constructor propagates its
own error. -/
def Policy.init {E V S O F A C : Type}
    (model_cls : O → F → A → C → Except E (Model E V S))
    (observation_spec : O) (feature_spec : F) (action_spec : A)
    (model_config : C) (dist_cls : DistCls E V S) :
    Except E (Policy E V S) :=
  match model_cls observation_spec feature_spec action_spec model_config with
  | .error e => .error e
  | .ok m => .ok { model := m, distCls := dist_cls }

/-- Everything observable after a call to `Policy.sample`: the returned
tensor dict (or the propagated exception), the final state of the caller's
batch object, the ambient gradient-tracking mode after the call, the
model's internal state, and ghost instrumentation. -/
structure SampleOutcome (E V S : Type) where
  result : Except E (TensorDict V)
  batch : TensorDict V
  gradMode : Bool
  modelState : S
  forwardCalls : Nat
  viewKinds : List String
  dists : List (Dist E V)
  outIsBatch : Bool

/-- Writing the produced outputs into the output container
(`policy.py` lines 134-139): features and actions always, the
log-probability when `return_logp`, the value estimate when
`return_values`. -/
def writeOutputs {V : Type} (base : TensorDict V) (features actions : V)
    (logpVal valuesVal : V) (return_logp return_values : Bool) :
    TensorDict V :=
  let o1 := (base.set Batch.FEATURES features).set Batch.ACTIONS actions
  let o2 := if return_logp then o1.set Batch.LOGP logpVal else o1
  if return_values then o2.set Batch.VALUES valuesVal else o2

/-- `Policy.sample` (`policy.py` lines 59-142), embedded step by step:

1. `in_batch = self.model.apply_view_requirements(batch, kind=kind)`;
2. `prev = torch.is_grad_enabled()` (the `prev` argument) and
   `torch.set_grad_enabled(requires_grad)`;
3. `features = self.model(in_batch)`;
4. `dist = self.dist_cls(features, self.model)`;
5. `actions = dist.deterministic_sample() if deterministic else dist.sample()`;
6. `out = batch if inplace else TensorDict({}, batch_size=in_batch.batch_size,
   device=batch.device)`;
7.-9. the writes of `writeOutputs`;
10. `torch.set_grad_enabled(prev)`; 11. `return out`.

The Python code has no `try`/`finally`: an exception raised after step 2
propagates before step 10 runs, leaving the ambient mode at
`requires_grad`.  The embedding reproduces exactly that. -/
def Policy.sample {E V S : Type} (p : Policy E V S) (batch : TensorDict V)
    (kind : String) (deterministic inplace requires_grad return_logp
    return_values : Bool) (prev : Bool) (s0 : S) : SampleOutcome E V S :=
  match p.model.applyViewRequirements batch kind with
  | .error e =>
      { result := .error e, batch := batch, gradMode := prev,
        modelState := s0, forwardCalls := 0, viewKinds := [kind],
        dists := [], outIsBatch := false }
  | .ok in_batch =>
    match p.model.forward s0 in_batch with
    | .error e =>
        { result := .error e, batch := batch, gradMode := requires_grad,
          modelState := s0, forwardCalls := 1, viewKinds := [kind],
          dists := [], outIsBatch := false }
    | .ok (features, s1) =>
      match p.distCls features p.model s1 with
      | .error e =>
          { result := .error e, batch := batch, gradMode := requires_grad,
            modelState := s1, forwardCalls := 1, viewKinds := [kind],
            dists := [], outIsBatch := false }
      | .ok dist =>
        match (if deterministic then dist.deterministicSample
               else dist.sample) with
        | .error e =>
            { result := .error e, batch := batch, gradMode := requires_grad,
              modelState := s1, forwardCalls := 1, viewKinds := [kind],
              dists := [dist], outIsBatch := false }
        | .ok actions =>
          let base : TensorDict V :=
            if inplace then batch
            else { entries := [], batchSize := in_batch.batchSize,
                   device := batch.device }
          let out := writeOutputs base features actions (dist.logp actions)
            (p.model.valueFunction s1) return_logp return_values
          { result := .ok out,
            batch := if inplace then out else batch,
            gradMode := prev, modelState := s1, forwardCalls := 1,
            viewKinds := [kind], dists := [dist], outIsBatch := inplace }

/-! ### Basic lemmas about the tensor-dict map operations -/

namespace TensorDict

theorem lookupEntry_setEntry_self {V : Type} (l : List (String × V))
    (k : String) (v : V) : lookupEntry (setEntry l k v) k = some v := by
  induction l with
  | nil => simp [setEntry, lookupEntry]
  | cons hd t ih =>
    obtain ⟨k', v'⟩ := hd
    by_cases h : k' = k
    · simp [setEntry, lookupEntry, h]
    · simp [setEntry, lookupEntry, h, ih]

theorem lookupEntry_setEntry_other {V : Type} (l : List (String × V))
    (k k' : String) (v : V) (h : k' ≠ k) :
    lookupEntry (setEntry l k v) k' = lookupEntry l k' := by
  induction l with
  | nil => simp [setEntry, lookupEntry, Ne.symm h]
  | cons hd t ih =>
    obtain ⟨k0, v0⟩ := hd
    by_cases h0 : k0 = k
    · subst h0
      simp [setEntry, lookupEntry, Ne.symm h]
    · simp [setEntry, lookupEntry, h0, ih]

theorem get?_set_self {V : Type} (td : TensorDict V) (k : String) (v : V) :
    (td.set k v).get? k = some v :=
  lookupEntry_setEntry_self td.entries k v

theorem get?_set_other {V : Type} (td : TensorDict V) (k k' : String)
    (v : V) (h : k' ≠ k) : (td.set k v).get? k' = td.get? k' :=
  lookupEntry_setEntry_other td.entries k k' v h

theorem batchSize_set {V : Type} (td : TensorDict V) (k : String) (v : V) :
    (td.set k v).batchSize = td.batchSize := rfl

theorem device_set {V : Type} (td : TensorDict V) (k : String) (v : V) :
    (td.set k v).device = td.device := rfl

end TensorDict

/-! ### Characterization lemmas for `Policy.sample` -/

/-- A call whose collaborators all succeed computes exactly the outcome of
the source's straight-line path: preprocessing, forward pass, distribution
construction, action sampling, the writes, and the restoration of the
gradient mode. -/
theorem sample_eq_of_chain {E V S : Type} (p : Policy E V S)
    (batch : TensorDict V) (kind : String)
    (dtm ip rg rlp rv prev : Bool) (s0 : S)
    (ib : TensorDict V) (f : V) (s1 : S) (d : Dist E V) (acts : V)
    (hA : p.model.applyViewRequirements batch kind = .ok ib)
    (hF : p.model.forward s0 ib = .ok (f, s1))
    (hD : p.distCls f p.model s1 = .ok d)
    (hS : (if dtm then d.deterministicSample else d.sample) = .ok acts) :
    p.sample batch kind dtm ip rg rlp rv prev s0 =
      { result := .ok (writeOutputs
          (if ip then batch
           else { entries := [], batchSize := ib.batchSize,
                  device := batch.device })
          f acts (d.logp acts) (p.model.valueFunction s1) rlp rv),
        batch := if ip then
            writeOutputs
              (if ip then batch
               else { entries := [], batchSize := ib.batchSize,
                      device := batch.device })
              f acts (d.logp acts) (p.model.valueFunction s1) rlp rv
          else batch,
        gradMode := prev, modelState := s1, forwardCalls := 1,
        viewKinds := [kind], dists := [d], outIsBatch := ip } := by
  unfold Policy.sample
  simp only [hA, hF, hD, hS]

theorem writeOutputs_get_FEATURES {V : Type} (b : TensorDict V)
    (f a l v : V) (rlp rv : Bool) :
    (writeOutputs b f a l v rlp rv).get? Batch.FEATURES = some f := by
  unfold writeOutputs
  cases rlp <;> cases rv <;>
    simp [TensorDict.get?_set_self, TensorDict.get?_set_other,
      Batch.FEATURES, Batch.ACTIONS, Batch.LOGP, Batch.VALUES]

theorem writeOutputs_get_ACTIONS {V : Type} (b : TensorDict V)
    (f a l v : V) (rlp rv : Bool) :
    (writeOutputs b f a l v rlp rv).get? Batch.ACTIONS = some a := by
  unfold writeOutputs
  cases rlp <;> cases rv <;>
    simp [TensorDict.get?_set_self, TensorDict.get?_set_other,
      Batch.FEATURES, Batch.ACTIONS, Batch.LOGP, Batch.VALUES]

theorem writeOutputs_get_LOGP {V : Type} (b : TensorDict V)
    (f a l v : V) (rlp rv : Bool) :
    (writeOutputs b f a l v rlp rv).get? Batch.LOGP =
      if rlp then some l else b.get? Batch.LOGP := by
  unfold writeOutputs
  cases rlp <;> cases rv <;>
    simp [TensorDict.get?_set_self, TensorDict.get?_set_other,
      Batch.FEATURES, Batch.ACTIONS, Batch.LOGP, Batch.VALUES]

theorem writeOutputs_get_VALUES {V : Type} (b : TensorDict V)
    (f a l v : V) (rlp rv : Bool) :
    (writeOutputs b f a l v rlp rv).get? Batch.VALUES =
      if rv then some v else b.get? Batch.VALUES := by
  unfold writeOutputs
  cases rlp <;> cases rv <;>
    simp [TensorDict.get?_set_self, TensorDict.get?_set_other,
      Batch.FEATURES, Batch.ACTIONS, Batch.LOGP, Batch.VALUES]

theorem writeOutputs_get_other {V : Type} (b : TensorDict V)
    (f a l v : V) (rlp rv : Bool) (k : String)
    (h1 : k ≠ Batch.FEATURES) (h2 : k ≠ Batch.ACTIONS)
    (h3 : k ≠ Batch.LOGP) (h4 : k ≠ Batch.VALUES) :
    (writeOutputs b f a l v rlp rv).get? k = b.get? k := by
  unfold writeOutputs
  cases rlp <;> cases rv <;>
    simp [TensorDict.get?_set_other _ _ _ _ h1,
      TensorDict.get?_set_other _ _ _ _ h2,
      TensorDict.get?_set_other _ _ _ _ h3,
      TensorDict.get?_set_other _ _ _ _ h4]

theorem writeOutputs_batchSize {V : Type} (b : TensorDict V)
    (f a l v : V) (rlp rv : Bool) :
    (writeOutputs b f a l v rlp rv).batchSize = b.batchSize := by
  unfold writeOutputs
  cases rlp <;> cases rv <;> rfl

theorem writeOutputs_device {V : Type} (b : TensorDict V)
    (f a l v : V) (rlp rv : Bool) :
    (writeOutputs b f a l v rlp rv).device = b.device := by
  unfold writeOutputs
  cases rlp <;> cases rv <;> rfl

/-- The `kind` selector is forwarded verbatim to
`apply_view_requirements`, on every control path. -/
theorem sample_viewKinds {E V S : Type} (p : Policy E V S)
    (batch : TensorDict V) (kind : String)
    (dtm ip rg rlp rv prev : Bool) (s0 : S) :
    (p.sample batch kind dtm ip rg rlp rv prev s0).viewKinds = [kind] := by
  unfold Policy.sample
  cases hA : p.model.applyViewRequirements batch kind with
  | error e => rfl
  | ok ib =>
    dsimp only
    cases hF : p.model.forward s0 ib with
    | error e => rfl
    | ok fs =>
      obtain ⟨f, s1⟩ := fs
      dsimp only
      cases hD : p.distCls f p.model s1 with
      | error e => rfl
      | ok d =>
        dsimp only
        cases hS : (if dtm then d.deterministicSample else d.sample) with
        | error e => rfl
        | ok acts => rfl

/-- `sample_eq_of_chain` specialized to `inplace = true`: the writes land
in the caller's batch, which is also the returned container. -/
theorem sample_eq_of_chain_inplace {E V S : Type} (p : Policy E V S)
    (batch : TensorDict V) (kind : String)
    (dtm rg rlp rv prev : Bool) (s0 : S)
    (ib : TensorDict V) (f : V) (s1 : S) (d : Dist E V) (acts : V)
    (hA : p.model.applyViewRequirements batch kind = .ok ib)
    (hF : p.model.forward s0 ib = .ok (f, s1))
    (hD : p.distCls f p.model s1 = .ok d)
    (hS : (if dtm then d.deterministicSample else d.sample) = .ok acts) :
    p.sample batch kind dtm true rg rlp rv prev s0 =
      { result := .ok (writeOutputs batch f acts (d.logp acts)
          (p.model.valueFunction s1) rlp rv),
        batch := writeOutputs batch f acts (d.logp acts)
          (p.model.valueFunction s1) rlp rv,
        gradMode := prev, modelState := s1, forwardCalls := 1,
        viewKinds := [kind], dists := [d], outIsBatch := true } := by
  rw [sample_eq_of_chain p batch kind dtm true rg rlp rv prev s0 ib f s1 d
    acts hA hF hD hS]
  rfl

/-- `sample_eq_of_chain` specialized to `inplace = false`: the writes land
in a fresh container carrying the preprocessed batch's batch-size and the
original batch's device, and the caller's batch is untouched. -/
theorem sample_eq_of_chain_newdict {E V S : Type} (p : Policy E V S)
    (batch : TensorDict V) (kind : String)
    (dtm rg rlp rv prev : Bool) (s0 : S)
    (ib : TensorDict V) (f : V) (s1 : S) (d : Dist E V) (acts : V)
    (hA : p.model.applyViewRequirements batch kind = .ok ib)
    (hF : p.model.forward s0 ib = .ok (f, s1))
    (hD : p.distCls f p.model s1 = .ok d)
    (hS : (if dtm then d.deterministicSample else d.sample) = .ok acts) :
    p.sample batch kind dtm false rg rlp rv prev s0 =
      { result := .ok (writeOutputs
          { entries := [], batchSize := ib.batchSize, device := batch.device }
          f acts (d.logp acts) (p.model.valueFunction s1) rlp rv),
        batch := batch,
        gradMode := prev, modelState := s1, forwardCalls := 1,
        viewKinds := [kind], dists := [d], outIsBatch := false } := by
  rw [sample_eq_of_chain p batch kind dtm false rg rlp rv prev s0 ib f s1 d
    acts hA hF hD hS]
  rfl

/-! ### Concrete collaborator instances for witnesses and counterexamples

Tensor values are `Nat`, errors are `Unit`, and the model's internal state
is a `Nat` that the forward pass advances (so "the state after this call's
forward pass" is observable). -/

/-- A distribution over `Nat` parameterized by its features. -/
def okDist (f : Nat) : Dist Unit Nat :=
  { sample := .ok (f + 1), deterministicSample := .ok f,
    logp := fun a => a * 2 }

/-- A model whose collaborator calls all succeed. -/
def okModel : Model Unit Nat Nat :=
  { applyViewRequirements := fun td _ => .ok { td with batchSize := [1] },
    forward := fun s _ => .ok (s + 10, s + 1),
    valueFunction := fun s => 100 + s }

/-- A distribution class whose construction always succeeds. -/
def okDistCls : DistCls Unit Nat Nat :=
  fun f _ _ => .ok (okDist f)

/-- A policy built from the always-succeeding collaborators. -/
def okPolicy : Policy Unit Nat Nat := ⟨okModel, okDistCls⟩

/-- A sample input batch on device "cpu" with one pre-existing field. -/
def batch0 : TensorDict Nat :=
  { entries := [("obs", 5)], batchSize := [2, 3], device := "cpu" }

/-- A model whose forward pass raises. -/
def failModel : Model Unit Nat Nat :=
  { applyViewRequirements := fun td _ => .ok td,
    forward := fun _ _ => .error (),
    valueFunction := fun s => s }

/-- A policy whose forward pass raises. -/
def failPolicy : Policy Unit Nat Nat := ⟨failModel, okDistCls⟩

/-- A model whose view-requirement transform moves the batch to another
device (the collaborator contract does not forbid this). -/
def deviceModel : Model Unit Nat Nat :=
  { applyViewRequirements := fun td _ =>
      .ok { td with device := "cuda:0", batchSize := [6] },
    forward := fun s _ => .ok (s + 10, s + 1),
    valueFunction := fun s => 100 + s }

/-- A policy whose preprocessing changes the batch's device. -/
def devicePolicy : Policy Unit Nat Nat := ⟨deviceModel, okDistCls⟩

/-- A batch that already carries a field under the log-probability key. -/
def batchWithLogp : TensorDict Nat :=
  { entries := [("logp", 99)], batchSize := [2], device := "cpu" }

/-- A batch that already carries fields under the features key and an
unrelated key. -/
def batchWithFeatures : TensorDict Nat :=
  { entries := [("features", 7), ("extra", 3)], batchSize := [2],
    device := "cpu" }

/-- A model constructor that fails with its own error. -/
def errCtor : Unit → Unit → Unit → Unit → Except Unit (Model Unit Nat Nat) :=
  fun _ _ _ _ => .error ()

/-- A model constructor that succeeds. -/
def okCtor : Unit → Unit → Unit → Unit → Except Unit (Model Unit Nat Nat) :=
  fun _ _ _ _ => .ok okModel

/-! ### Claim theorems -/

/-- C1: the spec demands that `Policy.sample` restore the ambient
gradient-tracking mode even when the forward pass (or a later step) raises.
The source has no try/finally around lines 120-141 of `policy.py`, so an
exception raised after `torch.set_grad_enabled(requires_grad)` propagates
before the restoring `torch.set_grad_enabled(prev)` runs.  Evaluating the
embedded code at the failing input — prior mode `true`, call with
`requires_grad = false` on a policy whose forward pass raises — shows the
error propagating while the ambient mode is left at `false`, not restored
to the snapshot `true`. -/
theorem C1_grad_mode_leaked_on_forward_error :
    (failPolicy.sample batch0 "last" false false false false false
        true 0).result = .error () ∧
      (failPolicy.sample batch0 "last" false false false false false
        true 0).gradMode = false ∧
      (failPolicy.sample batch0 "last" false false false false false
        true 0).gradMode ≠ true := by
  refine ⟨rfl, rfl, ?_⟩
  intro h
  exact Bool.noConfusion h

/-- C3: with `inplace = false` the caller-supplied batch object is not
mutated on any control path: the batch observed after the call is exactly
the batch passed in (so in particular its field set is unchanged). -/
theorem C3_inplace_false_batch_unchanged {E V S : Type} (p : Policy E V S)
    (batch : TensorDict V) (kind : String) (dtm rg rlp rv prev : Bool)
    (s0 : S) :
    (p.sample batch kind dtm false rg rlp rv prev s0).batch = batch := by
  unfold Policy.sample
  cases hA : p.model.applyViewRequirements batch kind with
  | error e => rfl
  | ok ib =>
    dsimp only
    cases hF : p.model.forward s0 ib with
    | error e => rfl
    | ok fs =>
      obtain ⟨f, s1⟩ := fs
      dsimp only
      cases hD : p.distCls f p.model s1 with
      | error e => rfl
      | ok d =>
        dsimp only
        cases hS : (if dtm then d.deterministicSample else d.sample) with
        | error e => rfl
        | ok acts => rfl

/-- C8: `Policy.init` applies the model constructor to exactly the three
specs and the configuration mapping; on failure it returns that
constructor's own error unmodified and does nothing else, and on success
the policy holds exactly the one constructed model together with the
distribution class stored unapplied (no distribution instance is built). -/
theorem C8_policy_init {E V S O F A C : Type}
    (model_cls : O → F → A → C → Except E (Model E V S))
    (o : O) (f : F) (a : A) (cfg : C) (d : DistCls E V S) :
    (∀ e, model_cls o f a cfg = .error e →
      Policy.init model_cls o f a cfg d = .error e) ∧
    (∀ m, model_cls o f a cfg = .ok m →
      Policy.init model_cls o f a cfg d = .ok { model := m, distCls := d }) := by
  constructor
  · intro e he
    unfold Policy.init
    rw [he]
  · intro m hm
    unfold Policy.init
    rw [hm]

/-- Witness for C8 at concrete inputs: a failing constructor's error is
propagated, and a succeeding constructor yields the policy holding that
model and the given distribution class. -/
theorem C8_policy_init_witness :
    Policy.init errCtor () () () () okDistCls = .error () ∧
    Policy.init okCtor () () () () okDistCls =
      .ok { model := okModel, distCls := okDistCls } :=
  ⟨(C8_policy_init errCtor () () () () okDistCls).1 () rfl,
   (C8_policy_init okCtor () () () () okDistCls).2 okModel rfl⟩

/-- C9: `Policy.sample` performs no validation of `kind`: for every string
`kind` — including values outside {"last", "all"} — the sampler forwards
`kind` verbatim to the model's `apply_view_requirements` (the recorded view
calls are exactly `[kind]`), and when every collaborator call succeeds the
sampler raises no error of its own. -/
theorem C9_kind_forwarded_verbatim {E V S : Type} (p : Policy E V S)
    (batch : TensorDict V) (kind : String)
    (dtm ip rg rlp rv prev : Bool) (s0 : S)
    (ib : TensorDict V) (f : V) (s1 : S) (d : Dist E V) (acts : V)
    (hA : p.model.applyViewRequirements batch kind = .ok ib)
    (hF : p.model.forward s0 ib = .ok (f, s1))
    (hD : p.distCls f p.model s1 = .ok d)
    (hS : (if dtm then d.deterministicSample else d.sample) = .ok acts) :
    (p.sample batch kind dtm ip rg rlp rv prev s0).viewKinds = [kind] ∧
    ∃ out, (p.sample batch kind dtm ip rg rlp rv prev s0).result = .ok out := by
  refine ⟨sample_viewKinds p batch kind dtm ip rg rlp rv prev s0, ?_⟩
  rw [sample_eq_of_chain p batch kind dtm ip rg rlp rv prev s0 ib f s1 d acts
    hA hF hD hS]
  exact ⟨_, rfl⟩

/-- Witness for C9 at a `kind` value outside {"last", "all"}: the unknown
selector is forwarded untouched and the call succeeds. -/
theorem C9_kind_forwarded_verbatim_witness :
    (okPolicy.sample batch0 "bogus-kind" false false false false false
      false 0).viewKinds = ["bogus-kind"] ∧
    ∃ out, (okPolicy.sample batch0 "bogus-kind" false false false false false
      false 0).result = .ok out :=
  C9_kind_forwarded_verbatim okPolicy batch0 "bogus-kind"
    false false false false false false 0
    { entries := [("obs", 5)], batchSize := [1], device := "cpu" }
    10 1 (okDist 10) 11 rfl rfl rfl rfl

/-- C2 counterexample: the claim says the fresh output container has the
device of the *preprocessed* input batch, but `policy.py` line 132 passes
`device=batch.device` — the device of the *original* caller-supplied
batch.  With a model whose view-requirement transform moves the batch from
"cpu" to "cuda:0", the preprocessed batch's device is "cuda:0" while the
returned container's device is "cpu". -/
theorem C2_counterexample_device_from_original_batch :
    deviceModel.applyViewRequirements batch0 "last" =
      .ok { entries := [("obs", 5)], batchSize := [6], device := "cuda:0" } ∧
    (devicePolicy.sample batch0 "last" false false false false false
      false 0).result.map TensorDict.device = .ok "cpu" ∧
    ("cpu" : String) ≠ "cuda:0" := by
  refine ⟨rfl, rfl, by decide⟩

/-- C2 (amended): with `inplace = false` the returned container is a newly
created one (not aliasing the caller's batch) holding only the fields
produced by this call, with the batch-size of the preprocessed input batch
and the device of the original caller-supplied batch. -/
theorem C2_new_container_only_produced_fields {E V S : Type}
    (p : Policy E V S) (batch : TensorDict V) (kind : String)
    (dtm rg rlp rv prev : Bool) (s0 : S)
    (ib : TensorDict V) (f : V) (s1 : S) (d : Dist E V) (acts : V)
    (hA : p.model.applyViewRequirements batch kind = .ok ib)
    (hF : p.model.forward s0 ib = .ok (f, s1))
    (hD : p.distCls f p.model s1 = .ok d)
    (hS : (if dtm then d.deterministicSample else d.sample) = .ok acts) :
    ∃ out, (p.sample batch kind dtm false rg rlp rv prev s0).result = .ok out ∧
      (p.sample batch kind dtm false rg rlp rv prev s0).outIsBatch = false ∧
      out.batchSize = ib.batchSize ∧
      out.device = batch.device ∧
      (out.get? Batch.FEATURES).isSome = true ∧
      (out.get? Batch.ACTIONS).isSome = true ∧
      (out.get? Batch.LOGP).isSome = rlp ∧
      (out.get? Batch.VALUES).isSome = rv ∧
      (∀ k, k ≠ Batch.FEATURES → k ≠ Batch.ACTIONS → k ≠ Batch.LOGP →
        k ≠ Batch.VALUES → out.get? k = none) := by
  rw [sample_eq_of_chain_newdict p batch kind dtm rg rlp rv prev s0 ib f s1 d
    acts hA hF hD hS]
  refine ⟨_, rfl, rfl, ?_, ?_, ?_, ?_, ?_, ?_, ?_⟩
  · rw [writeOutputs_batchSize]
  · rw [writeOutputs_device]
  · rw [writeOutputs_get_FEATURES]
    rfl
  · rw [writeOutputs_get_ACTIONS]
    rfl
  · rw [writeOutputs_get_LOGP]
    cases rlp <;> rfl
  · rw [writeOutputs_get_VALUES]
    cases rv <;> rfl
  · intro k h1 h2 h3 h4
    exact (writeOutputs_get_other _ _ _ _ _ _ _ k h1 h2 h3 h4).trans rfl

/-- Witness for C2's amended theorem at a concrete call. -/
theorem C2_new_container_only_produced_fields_witness :
    ∃ out, (okPolicy.sample batch0 "last" false false false true true
        false 0).result = .ok out ∧
      (okPolicy.sample batch0 "last" false false false true true
        false 0).outIsBatch = false ∧
      out.batchSize = (TensorDict.mk [("obs", 5)] [1] "cpu").batchSize ∧
      out.device = batch0.device ∧
      (out.get? Batch.FEATURES).isSome = true ∧
      (out.get? Batch.ACTIONS).isSome = true ∧
      (out.get? Batch.LOGP).isSome = true ∧
      (out.get? Batch.VALUES).isSome = true ∧
      (∀ k, k ≠ Batch.FEATURES → k ≠ Batch.ACTIONS → k ≠ Batch.LOGP →
        k ≠ Batch.VALUES → out.get? k = none) :=
  C2_new_container_only_produced_fields okPolicy batch0 "last"
    false false true true false 0
    { entries := [("obs", 5)], batchSize := [1], device := "cpu" }
    10 1 (okDist 10) 11 rfl rfl rfl rfl

/-- C4: with `inplace = true` the returned container is the caller's batch
object itself (the aliasing flag is set and the result equals the final
state of the caller's batch), and after the call that object holds the
produced features and actions, plus the log-probability and the value
estimate when the corresponding flags are set. -/
theorem C4_inplace_returns_mutated_batch {E V S : Type}
    (p : Policy E V S) (batch : TensorDict V) (kind : String)
    (dtm rg rlp rv prev : Bool) (s0 : S)
    (ib : TensorDict V) (f : V) (s1 : S) (d : Dist E V) (acts : V)
    (hA : p.model.applyViewRequirements batch kind = .ok ib)
    (hF : p.model.forward s0 ib = .ok (f, s1))
    (hD : p.distCls f p.model s1 = .ok d)
    (hS : (if dtm then d.deterministicSample else d.sample) = .ok acts) :
    (p.sample batch kind dtm true rg rlp rv prev s0).outIsBatch = true ∧
    (p.sample batch kind dtm true rg rlp rv prev s0).result =
      .ok ((p.sample batch kind dtm true rg rlp rv prev s0).batch) ∧
    ((p.sample batch kind dtm true rg rlp rv prev s0).batch.get?
      Batch.FEATURES = some f) ∧
    ((p.sample batch kind dtm true rg rlp rv prev s0).batch.get?
      Batch.ACTIONS = some acts) ∧
    (rlp = true → (p.sample batch kind dtm true rg rlp rv prev s0).batch.get?
      Batch.LOGP = some (d.logp acts)) ∧
    (rv = true → (p.sample batch kind dtm true rg rlp rv prev s0).batch.get?
      Batch.VALUES = some (p.model.valueFunction s1)) := by
  rw [sample_eq_of_chain_inplace p batch kind dtm rg rlp rv prev s0 ib f s1 d
    acts hA hF hD hS]
  refine ⟨rfl, rfl, ?_, ?_, ?_, ?_⟩
  · exact writeOutputs_get_FEATURES _ _ _ _ _ _ _
  · exact writeOutputs_get_ACTIONS _ _ _ _ _ _ _
  · intro h
    subst h
    rw [writeOutputs_get_LOGP]
    rfl
  · intro h
    subst h
    rw [writeOutputs_get_VALUES]
    rfl

/-- Witness for C4 at a concrete call with both optional flags set. -/
theorem C4_inplace_returns_mutated_batch_witness :
    (okPolicy.sample batch0 "last" false true false true true
      false 0).outIsBatch = true ∧
    (okPolicy.sample batch0 "last" false true false true true
      false 0).result =
      .ok ((okPolicy.sample batch0 "last" false true false true true
        false 0).batch) ∧
    ((okPolicy.sample batch0 "last" false true false true true
      false 0).batch.get? Batch.FEATURES = some 10) ∧
    ((okPolicy.sample batch0 "last" false true false true true
      false 0).batch.get? Batch.ACTIONS = some 11) ∧
    (true = true → (okPolicy.sample batch0 "last" false true false true true
      false 0).batch.get? Batch.LOGP = some ((okDist 10).logp 11)) ∧
    (true = true → (okPolicy.sample batch0 "last" false true false true true
      false 0).batch.get? Batch.VALUES =
        some (okPolicy.model.valueFunction 1)) :=
  C4_inplace_returns_mutated_batch okPolicy batch0 "last"
    false false true true false 0
    { entries := [("obs", 5)], batchSize := [1], device := "cpu" }
    10 1 (okDist 10) 11 rfl rfl rfl rfl

/-- C5 counterexample: the claim's "if and only if" direction fails for
`inplace = true`: sampling into a batch that already carries a field under
the log-probability key, with `return_logp = false`, returns a container
that still contains the log-probability field. -/
theorem C5_counterexample_preexisting_logp_field :
    (okPolicy.sample batchWithLogp "last" false true false false false
      false 0).result.map (fun o => (o.get? Batch.LOGP).isSome) =
        .ok true ∧
    (true : Bool) ≠ false := by
  refine ⟨rfl, by decide⟩

/-- C5 (amended): every successful call returns a container holding the
produced features and the sampled action under the fixed keys, holding the
log-probability field if `return_logp` and the values field if
`return_values` (a superset driven by the flags); the "only if" direction
holds when `inplace = false`, while with `inplace = true` pre-existing
fields of the caller's batch remain present. -/
theorem C5_output_superset {E V S : Type}
    (p : Policy E V S) (batch : TensorDict V) (kind : String)
    (dtm ip rg rlp rv prev : Bool) (s0 : S)
    (ib : TensorDict V) (f : V) (s1 : S) (d : Dist E V) (acts : V)
    (hA : p.model.applyViewRequirements batch kind = .ok ib)
    (hF : p.model.forward s0 ib = .ok (f, s1))
    (hD : p.distCls f p.model s1 = .ok d)
    (hS : (if dtm then d.deterministicSample else d.sample) = .ok acts) :
    ∃ out, (p.sample batch kind dtm ip rg rlp rv prev s0).result = .ok out ∧
      out.get? Batch.FEATURES = some f ∧
      out.get? Batch.ACTIONS = some acts ∧
      (rlp = true → (out.get? Batch.LOGP).isSome = true) ∧
      (rv = true → (out.get? Batch.VALUES).isSome = true) ∧
      (ip = false → (out.get? Batch.LOGP).isSome = rlp ∧
        (out.get? Batch.VALUES).isSome = rv) := by
  cases ip with
  | true =>
    rw [sample_eq_of_chain_inplace p batch kind dtm rg rlp rv prev s0 ib f s1
      d acts hA hF hD hS]
    refine ⟨_, rfl, writeOutputs_get_FEATURES _ _ _ _ _ _ _,
      writeOutputs_get_ACTIONS _ _ _ _ _ _ _, ?_, ?_, ?_⟩
    · intro h
      subst h
      rw [writeOutputs_get_LOGP]
      rfl
    · intro h
      subst h
      rw [writeOutputs_get_VALUES]
      rfl
    · intro h
      exact Bool.noConfusion h
  | false =>
    rw [sample_eq_of_chain_newdict p batch kind dtm rg rlp rv prev s0 ib f s1
      d acts hA hF hD hS]
    refine ⟨_, rfl, writeOutputs_get_FEATURES _ _ _ _ _ _ _,
      writeOutputs_get_ACTIONS _ _ _ _ _ _ _, ?_, ?_, ?_⟩
    · intro h
      subst h
      rw [writeOutputs_get_LOGP]
      rfl
    · intro h
      subst h
      rw [writeOutputs_get_VALUES]
      rfl
    · intro _
      constructor
      · rw [writeOutputs_get_LOGP]
        cases rlp <;> rfl
      · rw [writeOutputs_get_VALUES]
        cases rv <;> rfl

/-- Witness for C5's amended theorem at a concrete call with
`inplace = false`, `return_logp = true`, `return_values = false`. -/
theorem C5_output_superset_witness :
    ∃ out, (okPolicy.sample batch0 "last" false false false true false
        false 0).result = .ok out ∧
      out.get? Batch.FEATURES = some 10 ∧
      out.get? Batch.ACTIONS = some 11 ∧
      (true = true → (out.get? Batch.LOGP).isSome = true) ∧
      (false = true → (out.get? Batch.VALUES).isSome = true) ∧
      (false = false → (out.get? Batch.LOGP).isSome = true ∧
        (out.get? Batch.VALUES).isSome = false) :=
  C5_output_superset okPolicy batch0 "last" false false false true false
    false 0 { entries := [("obs", 5)], batchSize := [1], device := "cpu" }
    10 1 (okDist 10) 11 rfl rfl rfl rfl

/-- C6 counterexample: the claim's second half — "with `return_logp=false`
the output has no log-probability field" — fails for `inplace = true` when
the caller's batch already carries a field under the log-probability key:
that pre-existing field is still present in the returned container. -/
theorem C6_counterexample_logp_field_without_flag :
    (okPolicy.sample
      { entries := [("logp", 42), ("x", 1)], batchSize := [4],
        device := "cpu" }
      "all" true true false false false false 0).result.map
        (fun o => o.get? Batch.LOGP) = .ok (some 42) ∧
    some (42 : Nat) ≠ none := by
  refine ⟨rfl, by decide⟩

/-- C6 (amended): with `return_logp = true` the log-probability field of
the output equals `logp(action)` evaluated on the very distribution
instance constructed in this call (the call constructs exactly one) for the
action it sampled; with `return_logp = false` the sampler writes no
log-probability field — the output has none when `inplace = false`, and
with `inplace = true` the field is exactly whatever the caller's batch
already held. -/
theorem C6_logp_from_same_distribution {E V S : Type}
    (p : Policy E V S) (batch : TensorDict V) (kind : String)
    (dtm ip rg rlp rv prev : Bool) (s0 : S)
    (ib : TensorDict V) (f : V) (s1 : S) (d : Dist E V) (acts : V)
    (hA : p.model.applyViewRequirements batch kind = .ok ib)
    (hF : p.model.forward s0 ib = .ok (f, s1))
    (hD : p.distCls f p.model s1 = .ok d)
    (hS : (if dtm then d.deterministicSample else d.sample) = .ok acts) :
    (p.sample batch kind dtm ip rg rlp rv prev s0).dists = [d] ∧
    ∃ out, (p.sample batch kind dtm ip rg rlp rv prev s0).result = .ok out ∧
      out.get? Batch.ACTIONS = some acts ∧
      (rlp = true → out.get? Batch.LOGP = some (d.logp acts)) ∧
      (rlp = false → ip = false → out.get? Batch.LOGP = none) ∧
      (rlp = false → ip = true → out.get? Batch.LOGP =
        batch.get? Batch.LOGP) := by
  cases ip with
  | true =>
    rw [sample_eq_of_chain_inplace p batch kind dtm rg rlp rv prev s0 ib f s1
      d acts hA hF hD hS]
    refine ⟨rfl, _, rfl, writeOutputs_get_ACTIONS _ _ _ _ _ _ _, ?_, ?_, ?_⟩
    · intro h
      subst h
      rw [writeOutputs_get_LOGP]
      rfl
    · intro _ h
      exact Bool.noConfusion h
    · intro h _
      subst h
      rw [writeOutputs_get_LOGP]
      rfl
  | false =>
    rw [sample_eq_of_chain_newdict p batch kind dtm rg rlp rv prev s0 ib f s1
      d acts hA hF hD hS]
    refine ⟨rfl, _, rfl, writeOutputs_get_ACTIONS _ _ _ _ _ _ _, ?_, ?_, ?_⟩
    · intro h
      subst h
      rw [writeOutputs_get_LOGP]
      rfl
    · intro h _
      subst h
      rw [writeOutputs_get_LOGP]
      rfl
    · intro _ h
      exact Bool.noConfusion h

/-- Witness for C6's amended theorem at a concrete call with
`return_logp = true`: the log-probability equals `logp` of the sampled
action under the one distribution built in the call. -/
theorem C6_logp_from_same_distribution_witness :
    (okPolicy.sample batch0 "last" false false false true false
      false 0).dists = [okDist 10] ∧
    ∃ out, (okPolicy.sample batch0 "last" false false false true false
        false 0).result = .ok out ∧
      out.get? Batch.ACTIONS = some 11 ∧
      (true = true → out.get? Batch.LOGP = some ((okDist 10).logp 11)) ∧
      (true = false → false = false → out.get? Batch.LOGP = none) ∧
      (true = false → false = true → out.get? Batch.LOGP =
        batch0.get? Batch.LOGP) :=
  C6_logp_from_same_distribution okPolicy batch0 "last" false false false
    true false false 0
    { entries := [("obs", 5)], batchSize := [1], device := "cpu" }
    10 1 (okDist 10) 11 rfl rfl rfl rfl

/-- C7: a successful call runs the model's forward pass exactly once, and
with `return_values = true` the values field of the output equals the
model's `value_function()` read off the internal state produced by that
same forward pass (the state the model is left in after the call), so no
second forward pass is triggered and no stale state is read. -/
theorem C7_values_from_this_forward_pass {E V S : Type}
    (p : Policy E V S) (batch : TensorDict V) (kind : String)
    (dtm ip rg rlp prev : Bool) (s0 : S)
    (ib : TensorDict V) (f : V) (s1 : S) (d : Dist E V) (acts : V)
    (hA : p.model.applyViewRequirements batch kind = .ok ib)
    (hF : p.model.forward s0 ib = .ok (f, s1))
    (hD : p.distCls f p.model s1 = .ok d)
    (hS : (if dtm then d.deterministicSample else d.sample) = .ok acts) :
    (p.sample batch kind dtm ip rg rlp true prev s0).forwardCalls = 1 ∧
    (p.sample batch kind dtm ip rg rlp true prev s0).modelState = s1 ∧
    ∃ out, (p.sample batch kind dtm ip rg rlp true prev s0).result =
        .ok out ∧
      out.get? Batch.VALUES = some (p.model.valueFunction s1) := by
  cases ip with
  | true =>
    rw [sample_eq_of_chain_inplace p batch kind dtm rg rlp true prev s0 ib f
      s1 d acts hA hF hD hS]
    refine ⟨rfl, rfl, _, rfl, ?_⟩
    rw [writeOutputs_get_VALUES]
    rfl
  | false =>
    rw [sample_eq_of_chain_newdict p batch kind dtm rg rlp true prev s0 ib f
      s1 d acts hA hF hD hS]
    refine ⟨rfl, rfl, _, rfl, ?_⟩
    rw [writeOutputs_get_VALUES]
    rfl

/-- Witness for C7 at a concrete call: the forward pass advanced the model
state from 0 to 1 and the values field reads `value_function` at state
1. -/
theorem C7_values_from_this_forward_pass_witness :
    (okPolicy.sample batch0 "last" false false false false true
      false 0).forwardCalls = 1 ∧
    (okPolicy.sample batch0 "last" false false false false true
      false 0).modelState = 1 ∧
    ∃ out, (okPolicy.sample batch0 "last" false false false false true
        false 0).result = .ok out ∧
      out.get? Batch.VALUES = some (okPolicy.model.valueFunction 1) :=
  C7_values_from_this_forward_pass okPolicy batch0 "last" false false false
    false false 0 { entries := [("obs", 5)], batchSize := [1], device := "cpu" }
    10 1 (okDist 10) 11 rfl rfl rfl rfl

/-- C10: with `inplace = true`, fields of the caller's batch stored under
names other than the four produced field names are left unchanged, while
each field this call produces overwrites any pre-existing field of the same
name: features and actions always, the log-probability exactly when
`return_logp` (otherwise a pre-existing log-probability field is
preserved), and the values field exactly when `return_values` (otherwise
preserved). -/
theorem C10_inplace_frame_and_overwrite {E V S : Type}
    (p : Policy E V S) (batch : TensorDict V) (kind : String)
    (dtm rg rlp rv prev : Bool) (s0 : S)
    (ib : TensorDict V) (f : V) (s1 : S) (d : Dist E V) (acts : V)
    (hA : p.model.applyViewRequirements batch kind = .ok ib)
    (hF : p.model.forward s0 ib = .ok (f, s1))
    (hD : p.distCls f p.model s1 = .ok d)
    (hS : (if dtm then d.deterministicSample else d.sample) = .ok acts) :
    ∃ out, (p.sample batch kind dtm true rg rlp rv prev s0).result =
        .ok out ∧
      (p.sample batch kind dtm true rg rlp rv prev s0).batch = out ∧
      (∀ k, k ≠ Batch.FEATURES → k ≠ Batch.ACTIONS → k ≠ Batch.LOGP →
        k ≠ Batch.VALUES → out.get? k = batch.get? k) ∧
      out.get? Batch.FEATURES = some f ∧
      out.get? Batch.ACTIONS = some acts ∧
      (rlp = true → out.get? Batch.LOGP = some (d.logp acts)) ∧
      (rlp = false → out.get? Batch.LOGP = batch.get? Batch.LOGP) ∧
      (rv = true → out.get? Batch.VALUES =
        some (p.model.valueFunction s1)) ∧
      (rv = false → out.get? Batch.VALUES = batch.get? Batch.VALUES) := by
  rw [sample_eq_of_chain_inplace p batch kind dtm rg rlp rv prev s0 ib f s1
    d acts hA hF hD hS]
  refine ⟨_, rfl, rfl, ?_, writeOutputs_get_FEATURES _ _ _ _ _ _ _,
    writeOutputs_get_ACTIONS _ _ _ _ _ _ _, ?_, ?_, ?_, ?_⟩
  · intro k h1 h2 h3 h4
    exact writeOutputs_get_other _ _ _ _ _ _ _ k h1 h2 h3 h4
  · intro h
    subst h
    rw [writeOutputs_get_LOGP]
    rfl
  · intro h
    subst h
    rw [writeOutputs_get_LOGP]
    rfl
  · intro h
    subst h
    rw [writeOutputs_get_VALUES]
    rfl
  · intro h
    subst h
    rw [writeOutputs_get_VALUES]
    rfl

/-- Witness for C10 at a concrete call on a batch that already holds a
field under the features key and an unrelated field: the unrelated field
survives, the features field is overwritten, and the untouched optional
fields keep their prior (absent) values. -/
theorem C10_inplace_frame_and_overwrite_witness :
    ∃ out, (okPolicy.sample batchWithFeatures "last" false true false false
        false false 0).result = .ok out ∧
      (okPolicy.sample batchWithFeatures "last" false true false false
        false false 0).batch = out ∧
      (∀ k, k ≠ Batch.FEATURES → k ≠ Batch.ACTIONS → k ≠ Batch.LOGP →
        k ≠ Batch.VALUES → out.get? k = batchWithFeatures.get? k) ∧
      out.get? Batch.FEATURES = some 10 ∧
      out.get? Batch.ACTIONS = some 11 ∧
      (false = true → out.get? Batch.LOGP = some ((okDist 10).logp 11)) ∧
      (false = false → out.get? Batch.LOGP =
        batchWithFeatures.get? Batch.LOGP) ∧
      (false = true → out.get? Batch.VALUES =
        some (okPolicy.model.valueFunction 1)) ∧
      (false = false → out.get? Batch.VALUES =
        batchWithFeatures.get? Batch.VALUES) :=
  C10_inplace_frame_and_overwrite okPolicy batchWithFeatures "last"
    false false false false false 0
    { entries := [("features", 7), ("extra", 3)], batchSize := [1],
      device := "cpu" }
    10 1 (okDist 10) 11 rfl rfl rfl rfl

end Finagg
